import Mathlib

/-!
Verification model of the riak-go-client connection-pool core (src/node.go).

The Go code is embedded shallowly: every pure state effect of a node
operation becomes a Lean function on an explicit `Node` record; the external
connection and command collaborators are reduced to the fields node.go reads
or writes; mutex acquisition/release, channels, timers and goroutine
scheduling are elided (the model is the sequential state semantics of each
operation's critical section).  Machine integers (`uint16` counters) are
modelled as `Nat`: every decrement in the source is guarded (either
explicitly, or by the pool invariant `count >= len(available)`), so no
wraparound is reachable, and the theorems below carry the corresponding
hypotheses wherever they talk about subtraction.
-/

namespace Riak

/-- Lifecycle states of a node, in the source's declaration order
(`state byte`, `iota`): ERROR, CREATED, RUNNING, HEALTH_CHECKING,
SHUTTING_DOWN, SHUTDOWN. -/
inductive NodeState
  | NODE_ERROR
  | NODE_CREATED
  | NODE_RUNNING
  | NODE_HEALTH_CHECKING
  | NODE_SHUTTING_DOWN
  | NODE_SHUTDOWN
deriving DecidableEq, Repr

/-- Numeric value of a lifecycle state, matching the Go `iota` enumeration;
the source compares states with `<` on these byte values. -/
def NodeState.toByte : NodeState → Nat
  | .NODE_ERROR => 0
  | .NODE_CREATED => 1
  | .NODE_RUNNING => 2
  | .NODE_HEALTH_CHECKING => 3
  | .NODE_SHUTTING_DOWN => 4
  | .NODE_SHUTDOWN => 5

/-- Errors surfaced by the node or by the connection collaborator. -/
inductive GoErr
  | illegalState (required : List NodeState) (current : NodeState)
  | createFailed (code : Nat)
  | connectFailed (code : Nat)
  | closeFailed (code : Nat)
  | execFailed (code : Nat)
deriving DecidableEq, Repr

/-- A command instance; `id` identifies the allocation, so two commands with
the same `id` model the very same Go struct instance. -/
structure Command where
  id : Nat
deriving DecidableEq, Repr

/-- The connection collaborator reduced to what node.go reads or writes:
the in-flight flag, the last-used timestamp (`Int`, since the source uses
signed `time.Duration` arithmetic), and the result `close()` would return. -/
structure Conn where
  connId : Nat
  inFlight : Bool
  lastUsed : Int
  closeErr : Option GoErr
deriving DecidableEq, Repr

/-- The `Node` record of src/node.go, restricted to the fields its methods
act on.  `closedConns` is instrumentation: it records every connection on
which `close()` has been invoked, so that theorems can state that a
connection was (or was not) closed. -/
structure Node where
  minConnections : Nat
  maxConnections : Nat
  idleTimeout : Int
  available : List Conn
  currentNumConnections : Nat
  state : NodeState
  closedConns : List Conn
deriving DecidableEq, Repr

/-- setState (src/node.go:286-291). -/
def setState (n : Node) (s : NodeState) : Node :=
  { n with state := s }

/-- stateCheck (src/node.go:293-307): error unless the current state is in
the allow-list. -/
def stateCheck (n : Node) (allowed : List NodeState) : Option GoErr :=
  if n.state ∈ allowed then none
  else some (GoErr.illegalState allowed n.state)

/-- getAvailableConnection (src/node.go:232-241): pop the front of the idle
queue, or return none when the queue is empty. -/
def getAvailableConnection (n : Node) : Option Conn × Node :=
  match n.available with
  | [] => (none, n)
  | c :: rest => (some c, { n with available := rest })

/-- returnConnectionToPool (src/node.go:243-258): below SHUTTING_DOWN the
connection's in-flight flag is cleared and it is appended to the back of the
idle queue; otherwise the live count is decremented and the connection is
closed (its close error discarded). -/
def returnConnectionToPool (n : Node) (c : Conn) : Node :=
  if n.state.toByte < NodeState.NODE_SHUTTING_DOWN.toByte then
    { n with available := n.available ++ [{ c with inFlight := false }] }
  else
    { n with currentNumConnections := n.currentNumConnections - 1,
             closedConns := n.closedConns ++ [c] }

/-- Outcome of one `newConnection` + `connect()` attempt, the behaviour of
the external connection collaborator: construction may fail (nil conn with
an error), the connect handshake may fail (non-nil conn with an error), or
both succeed yielding the given connection. -/
inductive CreateOutcome
  | ok (c : Conn)
  | newErr (e : GoErr)
  | connectErr (c : Conn) (e : GoErr)
deriving DecidableEq, Repr

/-- createNewConnection (src/node.go:332-348): on success the live count is
incremented (under the pool lock, elided) and the new connection returned;
on failure the node is unchanged.  The optional health-check command rides
in the connectionOptions and is exercised by the connection collaborator
during connect, outside this file's scope. -/
def createNewConnection (n : Node) (outcome : CreateOutcome)
    (_healthCheck : Option Command) : Option Conn × Option GoErr × Node :=
  match outcome with
  | .ok c =>
      (some c, none, { n with currentNumConnections := n.currentNumConnections + 1 })
  | .newErr e => (none, some e, n)
  | .connectErr c e => (some c, some e, n)

/-- The creation loop of Start (src/node.go:137-149), with `env i` giving
the outcome of the i-th creation attempt.  `fuel` is the number of
iterations remaining (`minConnections - i`).  NOTE: the source's
`if conn, err := n.createNewConnection(nil); err == nil` declares a fresh
`err` that shadows Start's named return value, so the error observed here
never reaches Start's caller; the loop merely breaks. -/
def startLoop (n : Node) (env : Nat → CreateOutcome) (i fuel : Nat) : Node :=
  match fuel with
  | 0 => n
  | fuel + 1 =>
    match createNewConnection n (env i) none with
    | (conn?, none, n') =>
      match conn? with
      | some conn => startLoop (returnConnectionToPool n' conn) env (i + 1) fuel
      | none => n'
    | (_, some _, n') => n'

/-- Start (src/node.go:127-164): requires state CREATED, runs the creation
loop for `minConnections` attempts, then (because the loop's error was
assigned to a shadowed variable and the named return is still nil) always
proceeds to start the expiration ticker (elided) and set state RUNNING,
returning nil. -/
def Start (n : Node) (env : Nat → CreateOutcome) : Option GoErr × Node :=
  match stateCheck n [NodeState.NODE_CREATED] with
  | some e => (some e, n)
  | none =>
    let n1 := startLoop n env 0 n.minConnections
    (none, setState n1 NodeState.NODE_RUNNING)

/-- The drain loop of shutdown (src/node.go:264-268): each idle connection's
slot is nilled, the live count decremented, and the named return `err` is
overwritten with that connection's close result, so only the last close's
result survives the loop.  Returns (final count, final err, conns closed). -/
def drainLoop : List Conn → Nat → Option GoErr → Nat × Option GoErr × List Conn
  | [], count, err => (count, err, [])
  | c :: rest, count, _ =>
    let r := drainLoop rest (count - 1) c.closeErr
    (r.1, r.2.1, c :: r.2.2)

/-- Result of Stop / shutdown: a returned error-and-node, or the fatal
`panic("Connections still in use")` branch of src/node.go:280. -/
inductive StopResult
  | ret (err : Option GoErr) (n : Node)
  | fatal
deriving DecidableEq, Repr

/-- shutdown (src/node.go:260-284): drain the idle queue; if the last close
failed, set state ERROR and return that error (the source nils each slot but
keeps the slice, so the idle queue keeps its length — entries are never read
again, hence the model keeps the list); otherwise if the live count reached
zero, clear the queue and set state SHUTDOWN; otherwise the source panics. -/
def shutdown (n : Node) : StopResult :=
  let r := drainLoop n.available n.currentNumConnections none
  let n1 := { n with currentNumConnections := r.1,
                     closedConns := n.closedConns ++ r.2.2 }
  match r.2.1 with
  | some e => StopResult.ret (some e) (setState n1 NodeState.NODE_ERROR)
  | none =>
    if r.1 = 0 then
      StopResult.ret none (setState { n1 with available := [] } NodeState.NODE_SHUTDOWN)
    else
      StopResult.fatal

/-- Stop (src/node.go:166-176): requires state CREATED or HEALTH_CHECKING;
signals the expiration goroutine and stops the ticker (elided), sets state
SHUTTING_DOWN and runs the synchronous drain. -/
def Stop (n : Node) : StopResult :=
  match stateCheck n [NodeState.NODE_CREATED, NodeState.NODE_HEALTH_CHECKING] with
  | some e => StopResult.ret (some e) n
  | none => shutdown (setState n NodeState.NODE_SHUTTING_DOWN)

/-- Result of Execute: the (executed, err) pair it returns, the node state
it leaves behind, and whether `go n.healthCheck()` was spawned. -/
structure ExecResult where
  executed : Bool
  err : Option GoErr
  node : Node
  spawnedHealthCheck : Bool
deriving DecidableEq, Repr

/-- Execute (src/node.go:178-228).  `co` is the outcome the environment
gives a connection-creation attempt (consulted only when the idle queue is
empty and the pool is below maximum); `execRes` is the result of
`conn.execute(cmd)` on the acquired connection.  The command itself only
contributes its name to a debug log. -/
def Execute (n : Node) (_cmd : Command) (co : CreateOutcome)
    (execRes : Option GoErr) : ExecResult :=
  match stateCheck n [NodeState.NODE_RUNNING, NodeState.NODE_HEALTH_CHECKING] with
  | some e => ⟨false, some e, n, false⟩
  | none =>
    if n.state = NodeState.NODE_RUNNING then
      match getAvailableConnection n with
      | (some conn, n1) =>
        match execRes with
        | none => ⟨true, none, returnConnectionToPool n1 conn, false⟩
        | some e => ⟨false, some e, returnConnectionToPool n1 conn, false⟩
      | (none, n1) =>
        if n1.currentNumConnections < n1.maxConnections then
          match createNewConnection n1 co none with
          | (some conn, none, n2) =>
            match execRes with
            | none => ⟨true, none, returnConnectionToPool n2 conn, false⟩
            | some e => ⟨false, some e, returnConnectionToPool n2 conn, false⟩
          | (_, e?, n2) => ⟨false, e?, n2, true⟩
        else
          ⟨false, none, n1, false⟩
    else
      ⟨false, none, n, false⟩

/-- One swap-removal of the expiration sweep (src/node.go:373-375): the Go
multi-assignment writes the last element over index `i`, nils the last slot
and truncates the slice by one. -/
def swapRemove (xs : List Conn) (i : Nat) : List Conn :=
  match xs.getLast? with
  | none => xs
  | some last => (xs.set i last).take (xs.length - 1)

/-- The per-tick sweep loop of expireIdleConnections (src/node.go:361-382):
while `i < len(available)`, stop as soon as the live count is at or below
the minimum; a connection idle for at least the idle timeout is
swap-removed, closed and the count decremented (index not advanced);
otherwise the index advances.  `fuel` bounds the iterations; each iteration
decreases `len(available) - i` by exactly one, so `fuel = len(available)`
at entry is always sufficient. -/
def expireLoop (minC : Nat) (idleT now : Int) (fuel : Nat) (avail : List Conn)
    (count i : Nat) (closed : List Conn) : List Conn × Nat × List Conn :=
  match fuel with
  | 0 => (avail, count, closed)
  | fuel + 1 =>
    if i < avail.length then
      if count ≤ minC then (avail, count, closed)
      else
        match avail.get? i with
        | none => (avail, count, closed)
        | some conn =>
          if now - conn.lastUsed ≥ idleT then
            expireLoop minC idleT now fuel (swapRemove avail i) (count - 1) i
              (closed ++ [conn])
          else
            expireLoop minC idleT now fuel avail count (i + 1) closed
    else (avail, count, closed)

/-- One tick of expireIdleConnections (src/node.go:350-387), i.e. the body
run when the ticker fires at time `now`. -/
def expireIdleConnections (n : Node) (now : Int) : Node :=
  let r := expireLoop n.minConnections n.idleTimeout now n.available.length
    n.available n.currentNumConnections 0 []
  { n with available := r.1, currentNumConnections := r.2.1,
           closedConns := n.closedConns ++ r.2.2 }

/-- getHealthCheckCommand (src/node.go:389-399): with a configured builder,
one `Build()` call produces the probe; otherwise a fresh `&PingCommand{}`
literal does.  `fresh` is an allocation counter giving each produced
instance a distinct identity; the second component is the counter after the
call, so `fresh' - fresh` counts instances produced. -/
def getHealthCheckCommand (builder : Option (Nat → Command)) (fresh : Nat) :
    Command × Nat :=
  match builder with
  | some build => (build fresh, fresh + 1)
  | none => ({ id := fresh }, fresh + 1)

/-- The retry loop of healthCheck (src/node.go:316-327): `failures` attempts
fail (each followed by a sleep, elided), then one succeeds yielding
`newConn`, which is returned to the pool before state moves to RUNNING.
Every attempt passes the same `hc` command obtained before the loop; the
returned list records the command instance used by each attempt in order. -/
def healthCheckLoop (n : Node) (hc : Command) (failures : Nat) (newConn : Conn) :
    Node × List Command :=
  match failures with
  | 0 =>
    match createNewConnection n (CreateOutcome.ok newConn) (some hc) with
    | (some conn, none, n') =>
      (setState (returnConnectionToPool n' conn) NodeState.NODE_RUNNING, [hc])
    | (_, _, n') => (n', [hc])
  | k + 1 =>
    let r := createNewConnection n (CreateOutcome.newErr (GoErr.createFailed 0)) (some hc)
    let l := healthCheckLoop r.2.2 hc k newConn
    (l.1, hc :: l.2)

/-- healthCheck (src/node.go:309-330): set state HEALTH_CHECKING, obtain the
probe command once, then run the retry loop.  Returns the final node, the
probe instance used by each creation attempt, and the number of factory
invocations (the allocation counter's advance). -/
def healthCheck (n : Node) (builder : Option (Nat → Command)) (fresh : Nat)
    (failures : Nat) (newConn : Conn) : Node × List Command × Nat :=
  let n1 := setState n NodeState.NODE_HEALTH_CHECKING
  let r := getHealthCheckCommand builder fresh
  let l := healthCheckLoop n1 r.1 failures newConn
  (l.1, l.2, r.2 - fresh)

/-- The node NewNode returns (src/node.go:103-115): empty idle queue, zero
live connections, state CREATED. -/
def initialNode (minC maxC : Nat) (idleT : Int) : Node :=
  { minConnections := minC, maxConnections := maxC, idleTimeout := idleT,
    available := [], currentNumConnections := 0,
    state := NodeState.NODE_CREATED, closedConns := [] }

/-- A node state paired with the number of connections currently checked out
of the pool (held by a dispatcher or by the health-check activity between
creation and release).  The source does not store this number; it is the
ghost quantity the pool invariant speaks about. -/
structure PState where
  node : Node
  checkedOut : Nat
deriving DecidableEq, Repr

/-- The pool operations of node.go, as a transition relation on `PState`.
Each constructor is one critical section of the source:
`start` is Start (src/node.go:127-164); `acquire` is Execute popping the
idle queue while RUNNING (src/node.go:189, 232-241); `createForDispatch` is
Execute growing the pool when the queue is empty and the count is below
maximum (src/node.go:193-199); `release` is returnConnectionToPool for a
checked-out connection (src/node.go:243-258); `healthCheckBegin` is the
`go n.healthCheck()` spawn on a failed creation (src/node.go:194-198, 310);
`healthCheckSuccess` is the successful probe iteration (src/node.go:317-325);
`expire` is one ticker firing of expireIdleConnections (src/node.go:356-383);
`stop` is Stop (src/node.go:166-176) whenever it returns rather than
panics. -/
inductive Step : PState → PState → Prop
  | start (s : PState) (env : Nat → CreateOutcome)
      (h : s.node.state = NodeState.NODE_CREATED) :
      Step s ⟨(Start s.node env).2, s.checkedOut⟩
  | acquire (s : PState)
      (hs : s.node.state = NodeState.NODE_RUNNING)
      (ha : s.node.available ≠ []) :
      Step s ⟨(getAvailableConnection s.node).2, s.checkedOut + 1⟩
  | createForDispatch (s : PState) (c : Conn)
      (hs : s.node.state = NodeState.NODE_RUNNING)
      (ha : s.node.available = [])
      (hc : s.node.currentNumConnections < s.node.maxConnections) :
      Step s ⟨(createNewConnection s.node (CreateOutcome.ok c) none).2.2, s.checkedOut + 1⟩
  | release (s : PState) (c : Conn)
      (h : 0 < s.checkedOut) :
      Step s ⟨returnConnectionToPool s.node c, s.checkedOut - 1⟩
  | healthCheckBegin (s : PState)
      (hs : s.node.state = NodeState.NODE_RUNNING)
      (ha : s.node.available = [])
      (hc : s.node.currentNumConnections < s.node.maxConnections) :
      Step s ⟨setState s.node NodeState.NODE_HEALTH_CHECKING, s.checkedOut⟩
  | healthCheckSuccess (s : PState) (c : Conn)
      (hs : s.node.state = NodeState.NODE_HEALTH_CHECKING) :
      Step s ⟨setState
        (returnConnectionToPool (createNewConnection s.node (CreateOutcome.ok c) none).2.2 c)
        NodeState.NODE_RUNNING, s.checkedOut⟩
  | expire (s : PState) (now : Int) :
      Step s ⟨expireIdleConnections s.node now, s.checkedOut⟩
  | stop (s : PState) (e : Option GoErr) (n' : Node)
      (h : Stop s.node = StopResult.ret e n') :
      Step s ⟨n', s.checkedOut⟩

/-- States reachable from a freshly constructed node by pool operations. -/
inductive Reachable : PState → Prop
  | init (minC maxC : Nat) (idleT : Int) : Reachable ⟨initialNode minC maxC idleT, 0⟩
  | step (s s' : PState) (hr : Reachable s) (hs : Step s s') : Reachable s'

/-! Concrete instances used to evaluate the model at specific inputs. -/

/-- A connection whose creation succeeds on attempt 0 of a Start run. -/
def connStart1 : Conn := { connId := 1, inFlight := true, lastUsed := 0, closeErr := none }

/-- A Start environment in which attempt 0 succeeds and attempt 1 (the
second connection) fails to create. -/
def envStartFail2 : Nat → CreateOutcome := fun i =>
  if i = 0 then CreateOutcome.ok connStart1 else CreateOutcome.newErr (GoErr.createFailed 7)

/-- A freshly constructed node with minimum pool size 3. -/
def nodeMin3 : Node := initialNode 3 5 10

/-- A connection whose close() fails. -/
def connCloseFail : Conn :=
  { connId := 1, inFlight := false, lastUsed := 0, closeErr := some (GoErr.closeFailed 3) }

/-- A connection whose close() succeeds. -/
def connCloseOk : Conn := { connId := 2, inFlight := false, lastUsed := 0, closeErr := none }

/-- A health-checking node holding two idle connections, the first of which
fails to close and the second of which closes fine. -/
def nodeTwoIdle : Node :=
  { minConnections := 1, maxConnections := 2, idleTimeout := 10,
    available := [connCloseFail, connCloseOk], currentNumConnections := 2,
    state := NodeState.NODE_HEALTH_CHECKING, closedConns := [] }

/-- A health-checking node holding one idle connection whose close fails. -/
def nodeOneIdleBadClose : Node :=
  { minConnections := 1, maxConnections := 2, idleTimeout := 10,
    available := [connCloseFail], currentNumConnections := 1,
    state := NodeState.NODE_HEALTH_CHECKING, closedConns := [] }

/-- The pool state the C2 counterexample trace ends in: the drain of
`nodeOneIdleBadClose` failed to close its one idle connection, so the live
count fell to 0 while the idle queue kept length 1. -/
def badDrainPState : PState :=
  ⟨{ minConnections := 1, maxConnections := 2, idleTimeout := 10,
     available := [connCloseFail], currentNumConnections := 0,
     state := NodeState.NODE_ERROR, closedConns := [connCloseFail] }, 0⟩

/-- A running node at maximum capacity with an empty idle queue. -/
def nodeAtMax : Node :=
  { minConnections := 1, maxConnections := 1, idleTimeout := 10,
    available := [], currentNumConnections := 1,
    state := NodeState.NODE_RUNNING, closedConns := [] }

/-- A health-checking node with one idle connection. -/
def nodeHC : Node :=
  { minConnections := 1, maxConnections := 2, idleTimeout := 10,
    available := [connCloseOk], currentNumConnections := 1,
    state := NodeState.NODE_HEALTH_CHECKING, closedConns := [] }

/-- A running node with one pooled connection. -/
def nodeOnePooled : Node :=
  { minConnections := 1, maxConnections := 2, idleTimeout := 10,
    available := [connCloseOk], currentNumConnections := 1,
    state := NodeState.NODE_RUNNING, closedConns := [] }

/-- Distinct connections A, B, C for the FIFO claims. -/
def connA : Conn := { connId := 10, inFlight := true, lastUsed := 0, closeErr := none }

def connB : Conn := { connId := 11, inFlight := true, lastUsed := 0, closeErr := none }

def connC : Conn := { connId := 12, inFlight := false, lastUsed := 0, closeErr := none }

/-- A running node whose idle queue already holds connection C. -/
def nodePrimedC : Node :=
  { minConnections := 1, maxConnections := 5, idleTimeout := 10,
    available := [connC], currentNumConnections := 3,
    state := NodeState.NODE_RUNNING, closedConns := [] }

/-- A running node with an empty idle queue and room to spare. -/
def nodeEmptyIdle : Node :=
  { minConnections := 1, maxConnections := 5, idleTimeout := 10,
    available := [], currentNumConnections := 2,
    state := NodeState.NODE_RUNNING, closedConns := [] }

/-- Two stale idle connections (last used at times 0 and 1). -/
def connStale1 : Conn := { connId := 21, inFlight := false, lastUsed := 0, closeErr := none }

def connStale2 : Conn := { connId := 22, inFlight := false, lastUsed := 1, closeErr := none }

/-- A running node at minimum 1 with two stale idle connections. -/
def nodeTwoStale : Node :=
  { minConnections := 1, maxConnections := 5, idleTimeout := 10,
    available := [connStale1, connStale2], currentNumConnections := 2,
    state := NodeState.NODE_RUNNING, closedConns := [] }

/-- A health-check command factory producing a distinct instance per call. -/
def builderDistinct : Nat → Command := fun k => { id := 100 + k }

/-- A connection produced by a successful health-check probe. -/
def connProbe : Conn := { connId := 30, inFlight := true, lastUsed := 50, closeErr := none }

/-- A connection released to the pool after last being used at time 5. -/
def connUsedAt5 : Conn := { connId := 40, inFlight := true, lastUsed := 5, closeErr := none }

/-- A node in the terminal ERROR state with one live checked-out connection. -/
def nodeInError : Node :=
  { minConnections := 1, maxConnections := 2, idleTimeout := 10,
    available := [], currentNumConnections := 1,
    state := NodeState.NODE_ERROR, closedConns := [] }

/-- An arbitrary command for Execute calls. -/
def cmd0 : Command := { id := 0 }

/-! Helper lemmas shared by the claim theorems. -/

theorem returnConnectionToPool_below (n : Node) (c : Conn)
    (h : n.state.toByte < NodeState.NODE_SHUTTING_DOWN.toByte) :
    returnConnectionToPool n c =
      { n with available := n.available ++ [{ c with inFlight := false }] } := by
  simp [returnConnectionToPool, h]

theorem returnConnectionToPool_keeps_state (n : Node) (c : Conn) :
    (returnConnectionToPool n c).state = n.state := by
  unfold returnConnectionToPool
  split <;> rfl

theorem stateCheck_mem (n : Node) (allowed : List NodeState)
    (h : n.state ∈ allowed) : stateCheck n allowed = none := by
  simp [stateCheck, h]

/-- C1 evaluation.  On a fresh node with minimum 3 where the second creation
attempt fails, Start returns NO error and moves the state to RUNNING, with
exactly the one connection created before the failure pooled.  The claim
(and src/node.go's own dead `if err != nil` guard at line 151) expect the
creation error back and the state left CREATED: the `:=` at line 139
shadows the named return, so the loop's error is swallowed. -/
theorem C1_start_swallows_creation_error :
    Start nodeMin3 envStartFail2 =
      (none,
       { nodeMin3 with
           available := [{ connStart1 with inFlight := false }],
           currentNumConnections := 1,
           state := NodeState.NODE_RUNNING }) := by
  rfl

/-- C4: Execute refuses without an error and without touching the pool both
when the fine-grained state read is not RUNNING (after the coarse allow-list
check admitted HEALTH_CHECKING) and when the idle queue is empty with the
live count already at the configured maximum. -/
theorem C4_execute_rejects_without_error (n : Node) (cmd : Command)
    (co : CreateOutcome) (er : Option GoErr) :
    (n.state = NodeState.NODE_HEALTH_CHECKING →
      Execute n cmd co er = ⟨false, none, n, false⟩) ∧
    (n.state = NodeState.NODE_RUNNING → n.available = [] →
      n.maxConnections ≤ n.currentNumConnections →
      Execute n cmd co er = ⟨false, none, n, false⟩) := by
  constructor
  · intro h
    simp [Execute, stateCheck, h]
  · intro hs ha hmax
    simp [Execute, stateCheck, hs, getAvailableConnection, ha, Nat.not_lt.mpr hmax]

/-- C4 witness: a health-checking node, and a running node at maximum with
an empty idle queue, both make Execute return (false, nil) unchanged. -/
theorem C4_execute_rejects_without_error_witness :
    Execute nodeHC cmd0 (CreateOutcome.newErr (GoErr.createFailed 0)) none =
      ⟨false, none, nodeHC, false⟩ ∧
    Execute nodeAtMax cmd0 (CreateOutcome.newErr (GoErr.createFailed 0)) none =
      ⟨false, none, nodeAtMax, false⟩ :=
  ⟨(C4_execute_rejects_without_error nodeHC cmd0
      (CreateOutcome.newErr (GoErr.createFailed 0)) none).1 rfl,
   (C4_execute_rejects_without_error nodeAtMax cmd0
      (CreateOutcome.newErr (GoErr.createFailed 0)) none).2 rfl rfl (by decide)⟩

/-- C5: when the command's execution on the acquired connection fails,
Execute reports executed = false with that error, yet the connection is
appended back to the idle queue (in-flight flag cleared), with the live
count and the closed-connection record untouched. -/
theorem C5_command_failure_still_pools (n : Node) (cmd : Command)
    (co : CreateOutcome) (c : Conn) (rest : List Conn) (e : GoErr)
    (hs : n.state = NodeState.NODE_RUNNING) (ha : n.available = c :: rest) :
    Execute n cmd co (some e) =
      ⟨false, some e,
       { n with available := rest ++ [{ c with inFlight := false }] }, false⟩ := by
  simp [Execute, stateCheck, hs, getAvailableConnection, ha,
    returnConnectionToPool, NodeState.toByte]

/-- C5 witness at a concrete running node with one pooled connection. -/
theorem C5_command_failure_still_pools_witness :
    Execute nodeOnePooled cmd0 (CreateOutcome.newErr (GoErr.createFailed 0))
        (some (GoErr.execFailed 9)) =
      ⟨false, some (GoErr.execFailed 9),
       { nodeOnePooled with
           available := [{ connCloseOk with inFlight := false }] }, false⟩ := by
  exact C5_command_failure_still_pools nodeOnePooled cmd0
    (CreateOutcome.newErr (GoErr.createFailed 0)) connCloseOk [] (GoErr.execFailed 9)
    rfl rfl

/-- C6 counterexample.  With connection C already idle, releasing A then B
and acquiring yields C, not A: the claim's universally quantified "the next
acquire returns A" fails whenever the idle queue was nonempty beforehand. -/
theorem C6_fifo_counterexample :
    (getAvailableConnection
        (returnConnectionToPool (returnConnectionToPool nodePrimedC connA) connB)).1 =
      some connC ∧
    connC ≠ { connA with inFlight := false } ∧ connC ≠ connA := by
  exact ⟨rfl, by decide, by decide⟩

/-- C6 amended: releases append to the back of the idle queue and acquires
pop its front; consequently, releasing A then B into an EMPTY idle queue
(no intervening acquire) makes the next acquire return A. -/
theorem C6_fifo_order (n : Node) (c a b : Conn) (rest : List Conn) :
    (n.state.toByte < NodeState.NODE_SHUTTING_DOWN.toByte →
      (returnConnectionToPool n c).available =
        n.available ++ [{ c with inFlight := false }]) ∧
    (n.available = c :: rest →
      getAvailableConnection n = (some c, { n with available := rest })) ∧
    (n.state.toByte < NodeState.NODE_SHUTTING_DOWN.toByte → n.available = [] →
      (getAvailableConnection
          (returnConnectionToPool (returnConnectionToPool n a) b)).1 =
        some { a with inFlight := false }) := by
  refine ⟨?_, ?_, ?_⟩
  · intro h
    rw [returnConnectionToPool_below n c h]
  · intro ha
    simp [getAvailableConnection, ha]
  · intro h ha
    have h1 := returnConnectionToPool_below n a h
    have h2 : (returnConnectionToPool n a).state.toByte <
        NodeState.NODE_SHUTTING_DOWN.toByte := by
      rw [returnConnectionToPool_keeps_state]; exact h
    rw [returnConnectionToPool_below _ b h2, h1, ha]
    simp [getAvailableConnection]

/-- C6 witness: from an empty idle queue, releasing A then B and acquiring
returns A. -/
theorem C6_fifo_order_witness :
    (getAvailableConnection
        (returnConnectionToPool (returnConnectionToPool nodeEmptyIdle connA) connB)).1 =
      some { connA with inFlight := false } := by
  exact (C6_fifo_order nodeEmptyIdle connA connA connB []).2.2 (by decide) rfl

/-- C9 counterexample.  Releasing a connection last used at time 5 appends
it with its timestamp still 5 — returnConnectionToPool takes no clock at
all, so a release happening at, say, time 9 cannot stamp the connection
with 9; the pool does NOT update the last-used timestamp on release. -/
theorem C9_counterexample_lastUsed_not_updated :
    (returnConnectionToPool nodeEmptyIdle connUsedAt5).available =
      [{ connUsedAt5 with inFlight := false }] ∧
    ({ connUsedAt5 with inFlight := false }).lastUsed = 5 ∧ (5 : Int) ≠ 9 := by
  exact ⟨rfl, rfl, by decide⟩

/-- C9 amended: on release below SHUTTING_DOWN the pool clears the
connection's in-flight flag and appends it to the back of the idle queue;
the last-used timestamp is carried over unchanged (it is not written by the
pool). -/
theorem C9_release_clears_inflight_only (n : Node) (c : Conn)
    (h : n.state.toByte < NodeState.NODE_SHUTTING_DOWN.toByte) :
    (returnConnectionToPool n c).available =
      n.available ++ [{ c with inFlight := false }] ∧
    ({ c with inFlight := false }).inFlight = false ∧
    ({ c with inFlight := false }).lastUsed = c.lastUsed := by
  exact ⟨by rw [returnConnectionToPool_below n c h], rfl, rfl⟩

/-- C9 witness at a concrete node and connection. -/
theorem C9_release_clears_inflight_only_witness :
    (returnConnectionToPool nodeEmptyIdle connUsedAt5).available =
      nodeEmptyIdle.available ++ [{ connUsedAt5 with inFlight := false }] ∧
    ({ connUsedAt5 with inFlight := false }).inFlight = false ∧
    ({ connUsedAt5 with inFlight := false }).lastUsed = connUsedAt5.lastUsed := by
  exact C9_release_clears_inflight_only nodeEmptyIdle connUsedAt5 (by decide)

/-- C10: ERROR has byte value 0, below SHUTTING_DOWN, so a connection
returned while the node is in ERROR is appended to the idle queue with its
in-flight flag cleared (nothing closed, count untouched); and the close
branch of returnConnectionToPool fires exactly in the states SHUTTING_DOWN
and SHUTDOWN. -/
theorem C10_error_state_return_pools (n : Node) (c : Conn) :
    NodeState.NODE_ERROR.toByte = 0 ∧
    NodeState.NODE_ERROR.toByte < NodeState.NODE_SHUTTING_DOWN.toByte ∧
    (n.state = NodeState.NODE_ERROR →
      returnConnectionToPool n c =
        { n with available := n.available ++ [{ c with inFlight := false }] }) ∧
    ((returnConnectionToPool n c).closedConns ≠ n.closedConns ↔
      (n.state = NodeState.NODE_SHUTTING_DOWN ∨ n.state = NodeState.NODE_SHUTDOWN)) := by
  refine ⟨rfl, by decide, ?_, ?_⟩
  · intro h
    exact returnConnectionToPool_below n c (by rw [h]; decide)
  · cases hst : n.state <;>
      simp [returnConnectionToPool, hst, NodeState.toByte]

theorem expireLoop_min_le (minC : Nat) (idleT now : Int) :
    ∀ (fuel : Nat) (avail : List Conn) (count i : Nat) (closed : List Conn),
      minC ≤ count →
      minC ≤ (expireLoop minC idleT now fuel avail count i closed).2.1 := by
  intro fuel
  induction fuel with
  | zero => intro avail count i closed h; simpa [expireLoop] using h
  | succ fuel ih =>
    intro avail count i closed h
    rw [expireLoop]
    split
    · split
      · simpa using h
      · split
        · simpa using h
        · split
          · exact ih _ _ _ _ (by omega)
          · exact ih _ _ _ _ h
    · simpa using h

theorem expireLoop_le (minC : Nat) (idleT now : Int) :
    ∀ (fuel : Nat) (avail : List Conn) (count i : Nat) (closed : List Conn),
      (expireLoop minC idleT now fuel avail count i closed).2.1 ≤ count := by
  intro fuel
  induction fuel with
  | zero => intro avail count i closed; simp [expireLoop]
  | succ fuel ih =>
    intro avail count i closed
    rw [expireLoop]
    split
    · split
      · simp
      · split
        · simp
        · split
          · exact le_trans (ih _ _ _ _) (by omega)
          · exact ih _ _ _ _
    · simp

theorem expireLoop_stops_at_min (minC : Nat) (idleT now : Int)
    (fuel : Nat) (avail : List Conn) (count i : Nat) (closed : List Conn)
    (h : count ≤ minC) :
    expireLoop minC idleT now fuel avail count i closed = (avail, count, closed) := by
  cases fuel with
  | zero => rfl
  | succ fuel =>
    rw [expireLoop]
    split
    · simp [h]
    · rfl

/-- C7: one sweep of the idle-expiration activity never takes the live
count below the configured minimum (whatever the clock says about
staleness), never raises it, and does nothing at all once the count is at
or below the minimum. -/
theorem C7_expire_never_goes_below_minimum (n : Node) (now : Int)
    (h : n.minConnections ≤ n.currentNumConnections) :
    n.minConnections ≤ (expireIdleConnections n now).currentNumConnections ∧
    (expireIdleConnections n now).currentNumConnections ≤ n.currentNumConnections ∧
    (n.currentNumConnections ≤ n.minConnections → expireIdleConnections n now = n) := by
  refine ⟨expireLoop_min_le _ _ _ _ _ _ _ _ h, expireLoop_le _ _ _ _ _ _ _ _, ?_⟩
  intro hle
  unfold expireIdleConnections
  rw [expireLoop_stops_at_min _ _ _ _ _ _ _ _ hle]
  simp

/-- C7 witness: a node at minimum 1 holding two idle connections, both
stale at time 100 against an idle timeout of 10, keeps at least one live
connection after the sweep. -/
theorem C7_expire_never_goes_below_minimum_witness :
    nodeTwoStale.minConnections ≤
      (expireIdleConnections nodeTwoStale 100).currentNumConnections ∧
    (expireIdleConnections nodeTwoStale 100).currentNumConnections ≤
      nodeTwoStale.currentNumConnections := by
  exact ⟨(C7_expire_never_goes_below_minimum nodeTwoStale 100 (by decide)).1,
    (C7_expire_never_goes_below_minimum nodeTwoStale 100 (by decide)).2.1⟩

theorem healthCheckLoop_cmds (hc : Command) (newConn : Conn) :
    ∀ (failures : Nat) (n : Node),
      (healthCheckLoop n hc failures newConn).2 =
        List.replicate (failures + 1) hc := by
  intro failures
  induction failures with
  | zero => intro n; rfl
  | succ k ih =>
    intro n
    simp [healthCheckLoop, ih, List.replicate_succ]

/-- C8 counterexample.  A health check whose creation attempt fails once
before succeeding makes two creation attempts but invokes the command
factory exactly once, and both attempts carry the same command instance —
the claim's "invoked once per attempt, so no two attempts share a command
instance" is false inside a single health-check run (the factory is called
once, before the retry loop). -/
theorem C8_counterexample_shared_probe :
    (healthCheck nodeOnePooled (some builderDistinct) 0 1 connProbe).2.2 = 1 ∧
    (healthCheck nodeOnePooled (some builderDistinct) 0 1 connProbe).2.1.length = 2 ∧
    (healthCheck nodeOnePooled (some builderDistinct) 0 1 connProbe).2.1.get? 0 =
      (healthCheck nodeOnePooled (some builderDistinct) 0 1 connProbe).2.1.get? 1 := by
  exact ⟨rfl, rfl, rfl⟩

/-- C8 amended: each healthCheck invocation obtains exactly one probe
command (one factory call, or one default-probe allocation), and every
creation attempt of its retry loop uses that same instance; distinct
invocations (with distinct allocation counters) get distinct instances. -/
theorem C8_probe_built_once_per_invocation (n : Node)
    (builder : Option (Nat → Command)) (fresh failures : Nat) (c : Conn) :
    (healthCheck n builder fresh failures c).2.2 = 1 ∧
    (healthCheck n builder fresh failures c).2.1 =
      List.replicate (failures + 1) (getHealthCheckCommand builder fresh).1 := by
  constructor
  · cases builder <;> simp [healthCheck, getHealthCheckCommand]
  · simp [healthCheck, healthCheckLoop_cmds]

theorem drainLoop_spec :
    ∀ (xs : List Conn) (count : Nat) (e : Option GoErr),
      drainLoop xs count e =
        (count - xs.length, xs.foldl (fun _ c => c.closeErr) e, xs) := by
  intro xs
  induction xs with
  | nil => intro count e; rfl
  | cons c rest ih =>
    intro count e
    simp only [drainLoop, ih, List.foldl_cons, List.length_cons, Prod.mk.injEq]
    refine ⟨by omega, trivial⟩

theorem foldl_closeErr_eq_getLast (xs : List Conn) :
    ∀ e : Option GoErr,
      xs.foldl (fun _ c => c.closeErr) e =
        (match xs.getLast? with
         | none => e
         | some c => c.closeErr) := by
  induction xs with
  | nil => intro e; rfl
  | cons c rest ih =>
    intro e
    cases rest with
    | nil => rfl
    | cons d rest' =>
      rw [List.foldl_cons, ih, List.getLast?_cons_cons]
      cases hg : (d :: rest').getLast? with
      | none => exact absurd (List.getLast?_eq_none_iff.mp hg) (List.cons_ne_nil d rest')
      | some x => rfl

/-- C3 counterexample.  Stopping a health-checking node with two idle
connections, where the FIRST close fails and the second succeeds, ends in
SHUTDOWN with a nil error: the drain loop overwrites its error variable on
every iteration, so an early close failure is masked by a later success —
contradicting the claim that ANY close failure yields ERROR and the error. -/
theorem C3_counterexample_masked_close_error :
    connCloseFail.closeErr = some (GoErr.closeFailed 3) ∧
    Stop nodeTwoIdle =
      StopResult.ret none
        { nodeTwoIdle with
            state := NodeState.NODE_SHUTDOWN, available := [],
            currentNumConnections := 0,
            closedConns := [connCloseFail, connCloseOk] } := by
  exact ⟨rfl, rfl⟩

/-- C3 amended: the outcome of Stop's drain is decided by the LAST close
alone.  If the last idle connection's close fails, the node goes to ERROR
and Stop returns that error (the live count having been decremented for
every idle connection, the idle queue keeping its length); an earlier
failure masked by a later successful close is lost.  If the last close
succeeds (or the queue is empty) and the live count reaches zero, the pool
is cleared and the node goes to SHUTDOWN with a nil error. -/
theorem C3_stop_drain_outcomes (n : Node)
    (hstate : n.state = NodeState.NODE_CREATED ∨
      n.state = NodeState.NODE_HEALTH_CHECKING) :
    (∀ c e, n.available.getLast? = some c → c.closeErr = some e →
      Stop n = StopResult.ret (some e)
        { n with
            state := NodeState.NODE_ERROR,
            currentNumConnections := n.currentNumConnections - n.available.length,
            closedConns := n.closedConns ++ n.available }) ∧
    ((∀ c, n.available.getLast? = some c → c.closeErr = none) →
      n.currentNumConnections = n.available.length →
      Stop n = StopResult.ret none
        { n with
            state := NodeState.NODE_SHUTDOWN, available := [],
            currentNumConnections := 0,
            closedConns := n.closedConns ++ n.available }) := by
  have hchk : stateCheck n
      [NodeState.NODE_CREATED, NodeState.NODE_HEALTH_CHECKING] = none := by
    apply stateCheck_mem
    rcases hstate with h | h <;> simp [h]
  constructor
  · intro c e hlast hclose
    simp only [Stop, hchk, shutdown, setState, drainLoop_spec,
      foldl_closeErr_eq_getLast, hlast, hclose]
  · intro hok hcount
    cases hl : n.available.getLast? with
    | none =>
      have hnil : n.available = [] := List.getLast?_eq_none_iff.mp hl
      simp only [Stop, hchk, shutdown, setState, drainLoop_spec,
        foldl_closeErr_eq_getLast, hl, hnil] at *
      simp [hcount]
    | some c =>
      have hc := hok c hl
      simp only [Stop, hchk, shutdown, setState, drainLoop_spec,
        foldl_closeErr_eq_getLast, hl, hc, hcount, Nat.sub_self]
      simp [hcount]

/-- C3 witness: stopping a health-checking node whose single idle
connection fails to close returns that error and lands in ERROR. -/
theorem C3_stop_drain_outcomes_witness :
    Stop nodeOneIdleBadClose =
      StopResult.ret (some (GoErr.closeFailed 3))
        { nodeOneIdleBadClose with
            state := NodeState.NODE_ERROR,
            currentNumConnections :=
              nodeOneIdleBadClose.currentNumConnections -
                nodeOneIdleBadClose.available.length,
            closedConns := nodeOneIdleBadClose.closedConns ++
              nodeOneIdleBadClose.available } := by
  exact (C3_stop_drain_outcomes nodeOneIdleBadClose (Or.inr rfl)).1
    connCloseFail (GoErr.closeFailed 3) rfl rfl

theorem returnConnectionToPool_shutdown (n : Node) (c : Conn)
    (h : ¬ n.state.toByte < NodeState.NODE_SHUTTING_DOWN.toByte) :
    returnConnectionToPool n c =
      { n with currentNumConnections := n.currentNumConnections - 1,
               closedConns := n.closedConns ++ [c] } := by
  simp [returnConnectionToPool, h]

theorem swapRemove_length (xs : List Conn) (i : Nat) (h : xs ≠ []) :
    (swapRemove xs i).length = xs.length - 1 := by
  unfold swapRemove
  cases hl : xs.getLast? with
  | none => exact absurd (List.getLast?_eq_none_iff.mp hl) h
  | some last =>
    simp [List.length_take, List.length_set]

theorem expireLoop_inv (minC : Nat) (idleT now : Int) :
    ∀ (fuel : Nat) (avail : List Conn) (count i : Nat) (closed : List Conn) (k : Nat),
      count = avail.length + k →
      (expireLoop minC idleT now fuel avail count i closed).2.1 =
        (expireLoop minC idleT now fuel avail count i closed).1.length + k := by
  intro fuel
  induction fuel with
  | zero => intro avail count i closed k hk; simpa [expireLoop] using hk
  | succ fuel ih =>
    intro avail count i closed k hk
    rw [expireLoop]
    split
    · split
      · simpa using hk
      · split
        · simpa using hk
        · split
          · have hlen : 0 < avail.length := by omega
            have hne : avail ≠ [] := List.length_pos.mp hlen
            have hsw := swapRemove_length avail i hne
            exact ih _ _ _ _ _ (by omega)
          · exact ih _ _ _ _ _ hk
    · simpa using hk

theorem startLoop_spec (env : Nat → CreateOutcome) :
    ∀ (fuel i : Nat) (n : Node) (k : Nat),
      n.state = NodeState.NODE_CREATED →
      n.currentNumConnections = n.available.length + k →
      (startLoop n env i fuel).state = NodeState.NODE_CREATED ∧
      (startLoop n env i fuel).currentNumConnections =
        (startLoop n env i fuel).available.length + k := by
  intro fuel
  induction fuel with
  | zero => intro i n k h1 h2; exact ⟨h1, h2⟩
  | succ fuel ih =>
    intro i n k h1 h2
    cases henv : env i with
    | ok c =>
      simp only [startLoop, henv, createNewConnection]
      have hlt : ({ n with currentNumConnections := n.currentNumConnections + 1 } :
          Node).state.toByte < NodeState.NODE_SHUTTING_DOWN.toByte := by
        simp [h1, NodeState.toByte]
      rw [returnConnectionToPool_below _ _ hlt]
      exact ih _ _ _ (by simpa using h1)
        (by simp [List.length_append]; omega)
    | newErr e =>
      simpa [startLoop, henv, createNewConnection] using ⟨h1, h2⟩
    | connectErr c e =>
      simpa [startLoop, henv, createNewConnection] using ⟨h1, h2⟩

/-- The pool invariant, weakened to exempt the ERROR state: reachable
states either are in ERROR (entered only through a failed drain, which
breaks the equality) or satisfy live count = idle length + checked out. -/
theorem reachable_inv (s : PState) (hr : Reachable s) :
    s.node.state = NodeState.NODE_ERROR ∨
      s.node.currentNumConnections = s.node.available.length + s.checkedOut := by
  induction hr with
  | init minC maxC idleT => exact Or.inr rfl
  | step t t' _ hstep ih =>
    cases hstep with
    | start env h =>
      have hinv := ih.resolve_left (by rw [h]; decide)
      right
      have hchk : stateCheck t.node [NodeState.NODE_CREATED] = none :=
        stateCheck_mem _ _ (by simp [h])
      show (Start t.node env).2.currentNumConnections =
        (Start t.node env).2.available.length + t.checkedOut
      simp only [Start, hchk]
      exact (startLoop_spec env t.node.minConnections 0 t.node t.checkedOut h hinv).2
    | acquire hs ha =>
      have hinv := ih.resolve_left (by rw [hs]; decide)
      right
      cases havail : t.node.available with
      | nil => exact absurd havail ha
      | cons c rest =>
        rw [havail] at hinv
        simp only [getAvailableConnection, havail, List.length_cons] at *
        simpa using by omega
    | createForDispatch c hs ha hc =>
      have hinv := ih.resolve_left (by rw [hs]; decide)
      right
      simp only [createNewConnection]
      simpa using by omega
    | release c h =>
      by_cases hlt : t.node.state.toByte < NodeState.NODE_SHUTTING_DOWN.toByte
      · rcases ih with herr | hinv
        · left
          rw [returnConnectionToPool_keeps_state]
          exact herr
        · right
          rw [returnConnectionToPool_below _ _ hlt]
          simp [List.length_append]
          omega
      · rcases ih with herr | hinv
        · left
          rw [returnConnectionToPool_keeps_state]
          exact herr
        · right
          rw [returnConnectionToPool_shutdown _ _ hlt]
          simp only []
          omega
    | healthCheckBegin hs ha hc =>
      have hinv := ih.resolve_left (by rw [hs]; decide)
      exact Or.inr hinv
    | healthCheckSuccess c hs =>
      have hinv := ih.resolve_left (by rw [hs]; decide)
      right
      simp only [createNewConnection]
      have hlt : ({ t.node with
          currentNumConnections := t.node.currentNumConnections + 1 } :
          Node).state.toByte < NodeState.NODE_SHUTTING_DOWN.toByte := by
        simp [hs, NodeState.toByte]
      rw [returnConnectionToPool_below _ _ hlt]
      simp [setState, List.length_append]
      omega
    | expire now =>
      rcases ih with herr | hinv
      · exact Or.inl herr
      · exact Or.inr (expireLoop_inv _ _ _ _ _ _ _ _ _ hinv)
    | stop e n' h =>
      cases hchk : stateCheck t.node
          [NodeState.NODE_CREATED, NodeState.NODE_HEALTH_CHECKING] with
      | some err =>
        simp only [Stop, hchk] at h
        injection h with h1 h2
        subst h2
        exact ih
      | none =>
        have hmem : t.node.state ∈
            [NodeState.NODE_CREATED, NodeState.NODE_HEALTH_CHECKING] := by
          by_contra hmem
          simp [stateCheck, hmem] at hchk
        have hne : t.node.state ≠ NodeState.NODE_ERROR := by
          intro hEq
          rw [hEq] at hmem
          simp at hmem
        have hinv := ih.resolve_left hne
        simp only [Stop, hchk, shutdown, setState, drainLoop_spec] at h
        cases hf : t.node.available.foldl (fun _ c => c.closeErr) none with
        | some e' =>
          rw [hf] at h
          injection h with h1 h2
          subst h2
          exact Or.inl rfl
        | none =>
          rw [hf] at h
          by_cases hz : t.node.currentNumConnections - t.node.available.length = 0
          · rw [if_pos hz] at h
            injection h with h1 h2
            subst h2
            right
            simpa using by omega
          · rw [if_neg hz] at h
            exact absurd h (by simp)

/-- C2 amended: in every reachable state whose lifecycle state is not
ERROR, the live-connection count equals the idle-queue length plus the
number of checked-out connections; the equality is preserved by acquire,
release, create, expire and a successful drain, but a drain whose last
close fails (the only way into ERROR) decrements the count for every idle
connection while the idle queue keeps its length, breaking the equality. -/
theorem C2_live_count_equals_idle_plus_checked_out (s : PState)
    (hr : Reachable s) (h : s.node.state ≠ NodeState.NODE_ERROR) :
    s.node.currentNumConnections = s.node.available.length + s.checkedOut :=
  (reachable_inv s hr).resolve_left h

/-- C2 witness at the initial state of a freshly constructed node. -/
theorem C2_live_count_equals_idle_plus_checked_out_witness :
    (⟨initialNode 1 2 10, 0⟩ : PState).node.state ≠ NodeState.NODE_ERROR ∧
    (⟨initialNode 1 2 10, 0⟩ : PState).node.currentNumConnections =
      (⟨initialNode 1 2 10, 0⟩ : PState).node.available.length +
        (⟨initialNode 1 2 10, 0⟩ : PState).checkedOut :=
  ⟨by decide,
   C2_live_count_equals_idle_plus_checked_out _ (Reachable.init 1 2 10) (by decide)⟩

/-- C2 counterexample.  The claim's unqualified invariant fails in a
reachable state: start a node (min 1, max 2), check its one connection out,
fail a creation so the health check begins, return the connection while
health-checking, then Stop; the drain's close fails, leaving live count 0
against an idle queue of length 1 in the ERROR state. -/
theorem C2_counterexample_failed_drain :
    Reachable badDrainPState ∧
    badDrainPState.node.currentNumConnections ≠
      badDrainPState.node.available.length + badDrainPState.checkedOut := by
  constructor
  · have h0 : Reachable (⟨initialNode 1 2 10, 0⟩ : PState) := Reachable.init 1 2 10
    have h1 : Reachable
        (⟨{ minConnections := 1, maxConnections := 2, idleTimeout := 10,
            available := [connCloseFail], currentNumConnections := 1,
            state := NodeState.NODE_RUNNING, closedConns := [] }, 0⟩ : PState) :=
      Reachable.step _ _ h0
        (Step.start _ (fun _ => CreateOutcome.ok connCloseFail) rfl)
    have h2 : Reachable
        (⟨{ minConnections := 1, maxConnections := 2, idleTimeout := 10,
            available := [], currentNumConnections := 1,
            state := NodeState.NODE_RUNNING, closedConns := [] }, 1⟩ : PState) :=
      Reachable.step _ _ h1 (Step.acquire _ rfl (by decide))
    have h3 : Reachable
        (⟨{ minConnections := 1, maxConnections := 2, idleTimeout := 10,
            available := [], currentNumConnections := 1,
            state := NodeState.NODE_HEALTH_CHECKING, closedConns := [] }, 1⟩ : PState) :=
      Reachable.step _ _ h2 (Step.healthCheckBegin _ rfl rfl (by decide))
    have h4 : Reachable
        (⟨{ minConnections := 1, maxConnections := 2, idleTimeout := 10,
            available := [connCloseFail], currentNumConnections := 1,
            state := NodeState.NODE_HEALTH_CHECKING, closedConns := [] }, 0⟩ : PState) :=
      Reachable.step _ _ h3 (Step.release _ connCloseFail (by decide))
    exact Reachable.step _ _ h4
      (Step.stop _ (some (GoErr.closeFailed 3)) badDrainPState.node rfl)
  · decide

/-- C10 witness at a node in the ERROR state. -/
theorem C10_error_state_return_pools_witness :
    returnConnectionToPool nodeInError connUsedAt5 =
      { nodeInError with
          available := nodeInError.available ++ [{ connUsedAt5 with inFlight := false }] } ∧
    ((returnConnectionToPool nodeInError connUsedAt5).closedConns ≠
        nodeInError.closedConns ↔
      (nodeInError.state = NodeState.NODE_SHUTTING_DOWN ∨
        nodeInError.state = NodeState.NODE_SHUTDOWN)) := by
  exact ⟨(C10_error_state_return_pools nodeInError connUsedAt5).2.2.1 rfl,
    (C10_error_state_return_pools nodeInError connUsedAt5).2.2.2⟩

end Riak
